import Mathlib

/-!
Shallow embedding of `src/consensus/params.h` from the huntercore repository:
the fork-activation policy (`ConsensusRules`, `MainNetConsensus`,
`TestNetConsensus`, `RegTestConsensus`) and the `Consensus::Params` aggregate.

Heights are C++ `unsigned`; all comparisons in the source are against small
constants, so they are modelled as `Nat` (the source guards `nHeight == 0`
before computing `nHeight - 1`, so no wrap-around occurs). The `switch`
statements with a `default: assert (false);` branch are modelled twice: a
raw version over the enum's underlying integer returning `Option Bool`
(`none` = the assertion fires), and the total version over the closed `Fork`
inductive used by the rest of the development.
-/

/-- The `Fork` enumeration from `params.h` (ordinals 0..3). -/
inductive Fork
  | FORK_POISON
  | FORK_CARRYINGCAP
  | FORK_LESSHEARTS
  | FORK_LIFESTEAL
deriving DecidableEq, Repr

/-- Underlying integer value of the C++ enum (declaration order, from 0). -/
def Fork.toNat : Fork → Nat
  | .FORK_POISON => 0
  | .FORK_CARRYINGCAP => 1
  | .FORK_LESSHEARTS => 2
  | .FORK_LIFESTEAL => 3

namespace MainNetConsensus

/-- `MainNetConsensus::ForkInEffect`, as the C++ `switch` over the enum's
underlying integer; the `default: assert (false);` branch is `none`. -/
def ForkInEffectRaw (type : Nat) (nHeight : Nat) : Option Bool :=
  match type with
  | 0 => some (decide (nHeight ≥ 255000))
  | 1 => some (decide (nHeight ≥ 500000))
  | 2 => some (decide (nHeight ≥ 590000))
  | 3 => some (decide (nHeight ≥ 795000))
  | _ => none

/-- `MainNetConsensus::ForkInEffect` restricted to the enumerated values. -/
def ForkInEffect (type : Fork) (nHeight : Nat) : Bool :=
  match type with
  | .FORK_POISON => decide (nHeight ≥ 255000)
  | .FORK_CARRYINGCAP => decide (nHeight ≥ 500000)
  | .FORK_LESSHEARTS => decide (nHeight ≥ 590000)
  | .FORK_LIFESTEAL => decide (nHeight ≥ 795000)

end MainNetConsensus

namespace TestNetConsensus

/-- `TestNetConsensus::ForkInEffect`, raw `switch` form. -/
def ForkInEffectRaw (type : Nat) (nHeight : Nat) : Option Bool :=
  match type with
  | 0 => some (decide (nHeight ≥ 190000))
  | 1 => some (decide (nHeight ≥ 200000))
  | 2 => some (decide (nHeight ≥ 240000))
  | 3 => some (decide (nHeight ≥ 301000))
  | _ => none

/-- `TestNetConsensus::ForkInEffect` restricted to the enumerated values. -/
def ForkInEffect (type : Fork) (nHeight : Nat) : Bool :=
  match type with
  | .FORK_POISON => decide (nHeight ≥ 190000)
  | .FORK_CARRYINGCAP => decide (nHeight ≥ 200000)
  | .FORK_LESSHEARTS => decide (nHeight ≥ 240000)
  | .FORK_LIFESTEAL => decide (nHeight ≥ 301000)

end TestNetConsensus

namespace RegTestConsensus

/-- `class RegTestConsensus : public TestNetConsensus` has an empty body, so
its `ForkInEffect` is the inherited `TestNetConsensus::ForkInEffect`. -/
def ForkInEffect (type : Fork) (nHeight : Nat) : Bool :=
  TestNetConsensus.ForkInEffect type nHeight

/-- Inherited raw form. -/
def ForkInEffectRaw (type : Nat) (nHeight : Nat) : Option Bool :=
  TestNetConsensus.ForkInEffectRaw type nHeight

end RegTestConsensus

/-- The network variants, each constructing one `ConsensusRules` subclass. -/
inductive Network
  | Main
  | Test
  | Reg
deriving DecidableEq, Repr

/-- Virtual dispatch: the `ForkInEffect` of the variant's `ConsensusRules`. -/
def forkInEffect : Network → Fork → Nat → Bool
  | .Main => MainNetConsensus.ForkInEffect
  | .Test => TestNetConsensus.ForkInEffect
  | .Reg => RegTestConsensus.ForkInEffect

/-- Virtual dispatch for the raw (`switch` with assertion) form. -/
def forkInEffectRaw : Network → Nat → Nat → Option Bool
  | .Main => MainNetConsensus.ForkInEffectRaw
  | .Test => TestNetConsensus.ForkInEffectRaw
  | .Reg => RegTestConsensus.ForkInEffectRaw

/-- `ConsensusRules::IsForkHeight`, parameterised over the virtual
`ForkInEffect` it calls (the source defines it once on the base class). -/
def IsForkHeight (fie : Fork → Nat → Bool) (type : Fork) (nHeight : Nat) :
    Bool :=
  if nHeight = 0 then false
  else fie type nHeight && !fie type (nHeight - 1)

/-- The activation threshold table of each variant (the literal constants of
the `switch` statements). -/
def threshold : Network → Fork → Nat
  | .Main, .FORK_POISON => 255000
  | .Main, .FORK_CARRYINGCAP => 500000
  | .Main, .FORK_LESSHEARTS => 590000
  | .Main, .FORK_LIFESTEAL => 795000
  | .Test, .FORK_POISON => 190000
  | .Test, .FORK_CARRYINGCAP => 200000
  | .Test, .FORK_LESSHEARTS => 240000
  | .Test, .FORK_LIFESTEAL => 301000
  | .Reg, .FORK_POISON => 190000
  | .Reg, .FORK_CARRYINGCAP => 200000
  | .Reg, .FORK_LESSHEARTS => 240000
  | .Reg, .FORK_LIFESTEAL => 301000

/-- Every variant's `ForkInEffect` is the threshold comparison. -/
theorem forkInEffect_eq_threshold (net : Network) (f : Fork) (h : Nat) :
    forkInEffect net f h = decide (threshold net f ≤ h) := by
  cases net <;> cases f <;> rfl

namespace Consensus

/-- `struct Consensus::Params`. `uint256` values are modelled as `Nat`
(identity constants only — never computed with in this file), the C++
fixed-width integer fields as `Int`, and the `auto_ptr<ConsensusRules>`
as the `Network` tag selecting which subclass was constructed. -/
structure Params where
  hashGenesisBlock : Nat
  nSubsidyHalvingInterval : Int
  nMajorityEnforceBlockUpgrade : Int
  nMajorityRejectBlockOutdated : Int
  nMajorityWindow : Int
  BIP34Height : Int
  BIP34Hash : Nat
  powLimit : Fin 2 → Nat
  fPowNoRetargeting : Bool
  nPowTargetSpacing : Int
  nPowTargetTimespan : Int
  nAuxpowChainId : Fin 2 → Int
  fStrictChainId : Bool
  rules : Network

/-- `Params::DifficultyAdjustmentInterval`: recomputes the quotient of the
two stored fields on every call (C++ `int64_t` division truncates toward
zero, i.e. `Int.div`). `Params` stores no field holding this quotient. -/
def Params.DifficultyAdjustmentInterval (p : Params) : Int :=
  Int.div p.nPowTargetTimespan p.nPowTargetSpacing

/-- `Params::AllowLegacyBlocks`: `nHeight == 0`, reading no field. -/
def Params.AllowLegacyBlocks (_p : Params) (nHeight : Nat) : Bool :=
  nHeight = 0

end Consensus

/-- A concrete `Params` value used by closed witness statements. -/
def sampleParams : Consensus.Params :=
  { hashGenesisBlock := 0
    nSubsidyHalvingInterval := 210000
    nMajorityEnforceBlockUpgrade := 750
    nMajorityRejectBlockOutdated := 950
    nMajorityWindow := 1000
    BIP34Height := 0
    BIP34Hash := 0
    powLimit := fun _ => 0
    fPowNoRetargeting := false
    nPowTargetSpacing := 30
    nPowTargetTimespan := 2016 * 30
    nAuxpowChainId := fun _ => 6
    fStrictChainId := true
    rules := .Main }

/-- C1: for every network variant, every fork and heights h2 > h1, if the
fork is in effect at h1 it is in effect at h2 (activation is monotonic). -/
theorem C1_forkInEffect_monotone (net : Network) (f : Fork) (h1 h2 : Nat)
    (hlt : h1 < h2) (hact : forkInEffect net f h1 = true) :
    forkInEffect net f h2 = true := by
  rw [forkInEffect_eq_threshold] at hact ⊢
  simp only [decide_eq_true_eq] at hact ⊢
  omega

/-- Witness for C1 at a concrete input. -/
theorem C1_witness :
    forkInEffect .Main .FORK_POISON 255000 = true ∧
      forkInEffect .Main .FORK_POISON 255001 = true :=
  ⟨by decide, C1_forkInEffect_monotone .Main .FORK_POISON 255000 255001
    (by decide) (by decide)⟩

/-- C2: for every variant and fork, `IsForkHeight` is false at height 0, and
at every height h ≥ 1 it holds iff the fork is in effect at h and not at
h - 1. -/
theorem C2_isForkHeight_spec (net : Network) (f : Fork) :
    IsForkHeight (forkInEffect net) f 0 = false ∧
      ∀ h : Nat, 1 ≤ h →
        (IsForkHeight (forkInEffect net) f h = true ↔
          forkInEffect net f h = true ∧ forkInEffect net f (h - 1) = false) := by
  constructor
  · rfl
  · intro h hh
    unfold IsForkHeight
    rw [if_neg (by omega)]
    simp [Bool.and_eq_true, Bool.not_eq_true']

/-- Witness for C2 at a concrete input. -/
theorem C2_witness :
    IsForkHeight (forkInEffect .Main) .FORK_CARRYINGCAP 0 = false ∧
      (IsForkHeight (forkInEffect .Main) .FORK_CARRYINGCAP 500000 = true ↔
        forkInEffect .Main .FORK_CARRYINGCAP 500000 = true ∧
          forkInEffect .Main .FORK_CARRYINGCAP 499999 = false) :=
  ⟨(C2_isForkHeight_spec .Main .FORK_CARRYINGCAP).1,
    (C2_isForkHeight_spec .Main .FORK_CARRYINGCAP).2 500000
      (by omega : (1 : Nat) ≤ 500000)⟩

/-- C3: for every variant and fork whose threshold T is positive,
`IsForkHeight` is true exactly at T and false at every other height. -/
theorem C3_activation_exact (net : Network) (f : Fork)
    (hT : 0 < threshold net f) :
    IsForkHeight (forkInEffect net) f (threshold net f) = true ∧
      ∀ h : Nat, h ≠ threshold net f →
        IsForkHeight (forkInEffect net) f h = false := by
  constructor
  · unfold IsForkHeight
    rw [if_neg (by omega)]
    rw [forkInEffect_eq_threshold, forkInEffect_eq_threshold]
    simp only [Bool.and_eq_true, Bool.not_eq_true', decide_eq_true_eq,
      decide_eq_false_iff_not]
    omega
  · intro h hne
    unfold IsForkHeight
    by_cases h0 : h = 0
    · rw [if_pos h0]
    · rw [if_neg h0]
      rw [forkInEffect_eq_threshold, forkInEffect_eq_threshold]
      rcases Nat.lt_or_ge h (threshold net f) with hlt | hge
      · have hd : decide (threshold net f ≤ h) = false := by
          simp only [decide_eq_false_iff_not]
          omega
        rw [hd, Bool.false_and]
      · have hd : decide (threshold net f ≤ h - 1) = true := by
          simp only [decide_eq_true_eq]
          omega
        rw [hd, Bool.not_true, Bool.and_false]

/-- Witness for C3 at a concrete input. -/
theorem C3_witness :
    0 < threshold .Test .FORK_LIFESTEAL ∧
      IsForkHeight (forkInEffect .Test) .FORK_LIFESTEAL
        (threshold .Test .FORK_LIFESTEAL) = true ∧
      IsForkHeight (forkInEffect .Test) .FORK_LIFESTEAL 301001 = false :=
  ⟨by decide,
    (C3_activation_exact .Test .FORK_LIFESTEAL (by decide)).1,
    (C3_activation_exact .Test .FORK_LIFESTEAL (by decide)).2 301001
      (by decide)⟩

/-- C4: for every variant and height, the raw `switch` returns the defined
boolean `ForkInEffect` gives on each enumerated `Fork` value, and reaches
the assertion branch (`none`) on any integer that is not the underlying
value of an enumerated `Fork`. -/
theorem C4_totality (net : Network) (f : Fork) (h : Nat) (t : Nat)
    (ht : ∀ g : Fork, t ≠ g.toNat) :
    forkInEffectRaw net f.toNat h = some (forkInEffect net f h) ∧
      forkInEffectRaw net t h = none := by
  constructor
  · cases net <;> cases f <;> rfl
  · have h0 := ht .FORK_POISON
    have h1 := ht .FORK_CARRYINGCAP
    have h2 := ht .FORK_LESSHEARTS
    have h3 := ht .FORK_LIFESTEAL
    simp only [Fork.toNat] at h0 h1 h2 h3
    match t, h0, h1, h2, h3 with
    | t + 4, _, _, _, _ => cases net <;> rfl

/-- Witness for C4 at a concrete input. -/
theorem C4_witness :
    forkInEffectRaw .Main (Fork.toNat .FORK_POISON) 255000 =
        some (forkInEffect .Main .FORK_POISON 255000) ∧
      forkInEffectRaw .Main 7 255000 = none :=
  C4_totality .Main .FORK_POISON 255000 7 (by intro g; cases g <;> decide)

/-- C5: `RegTestConsensus::ForkInEffect` agrees with
`TestNetConsensus::ForkInEffect` at every fork and height, since RegTest
declares no overrides of its own. -/
theorem C5_regtest_inherits_testnet (f : Fork) (h : Nat) :
    RegTestConsensus.ForkInEffect f h = TestNetConsensus.ForkInEffect f h :=
  rfl

/-- C6: concrete activation values on Main (FORK_CARRYINGCAP around 500000)
and Test (FORK_LIFESTEAL around 301000). -/
theorem C6_concrete_scenarios :
    MainNetConsensus.ForkInEffect .FORK_CARRYINGCAP 499999 = false ∧
      MainNetConsensus.ForkInEffect .FORK_CARRYINGCAP 500000 = true ∧
      IsForkHeight MainNetConsensus.ForkInEffect .FORK_CARRYINGCAP 500000 =
        true ∧
      TestNetConsensus.ForkInEffect .FORK_LIFESTEAL 300999 = false ∧
      TestNetConsensus.ForkInEffect .FORK_LIFESTEAL 301000 = true := by
  decide

/-- C7: for every `Params` with nonzero spacing,
`DifficultyAdjustmentInterval` is exactly the truncated integer quotient of
the two stored fields, recomputed on each call (no field stores it). -/
theorem C7_difficulty_interval (p : Consensus.Params)
    (hs : p.nPowTargetSpacing ≠ 0) :
    p.DifficultyAdjustmentInterval =
      Int.div p.nPowTargetTimespan p.nPowTargetSpacing :=
  rfl

/-- Witness for C7 at a concrete input. -/
theorem C7_witness :
    sampleParams.nPowTargetSpacing ≠ 0 ∧
      sampleParams.DifficultyAdjustmentInterval =
        Int.div sampleParams.nPowTargetTimespan sampleParams.nPowTargetSpacing :=
  ⟨by decide, C7_difficulty_interval sampleParams (by decide)⟩

/-- C8: for every `Params`, `AllowLegacyBlocks` is true at height 0 and
false at every height h ≥ 1, independently of all fields. -/
theorem C8_allow_legacy (p : Consensus.Params) :
    p.AllowLegacyBlocks 0 = true ∧
      ∀ h : Nat, 1 ≤ h → p.AllowLegacyBlocks h = false := by
  constructor
  · rfl
  · intro h hh
    unfold Consensus.Params.AllowLegacyBlocks
    simp only [decide_eq_false_iff_not]
    omega

/-- C9: an activation height is itself an active height: for every variant,
fork and height, `IsForkHeight` true implies `ForkInEffect` true. -/
theorem C9_fork_height_active (net : Network) (f : Fork) (h : Nat)
    (hfh : IsForkHeight (forkInEffect net) f h = true) :
    forkInEffect net f h = true := by
  unfold IsForkHeight at hfh
  by_cases h0 : h = 0
  · rw [if_pos h0] at hfh
    exact absurd hfh (by decide)
  · rw [if_neg h0] at hfh
    exact (Bool.and_eq_true _ _ |>.mp hfh).1

/-- Witness for C9 at a concrete input. -/
theorem C9_witness :
    IsForkHeight (forkInEffect .Test) .FORK_POISON 190000 = true ∧
      forkInEffect .Test .FORK_POISON 190000 = true :=
  ⟨by decide, C9_fork_height_active .Test .FORK_POISON 190000 (by decide)⟩

/-- C10: every fork active on mainnet at a height is active on testnet at
that height (each testnet threshold is strictly below its mainnet one). -/
theorem C10_main_implies_test (f : Fork) (h : Nat)
    (hm : MainNetConsensus.ForkInEffect f h = true) :
    TestNetConsensus.ForkInEffect f h = true := by
  have h1 := forkInEffect_eq_threshold .Main f h
  have h2 := forkInEffect_eq_threshold .Test f h
  simp only [forkInEffect] at h1 h2
  rw [h1] at hm
  rw [h2]
  simp only [decide_eq_true_eq] at hm ⊢
  cases f <;> simp only [threshold] at hm ⊢ <;> omega

/-- Witness for C10 at a concrete input. -/
theorem C10_witness :
    MainNetConsensus.ForkInEffect .FORK_LIFESTEAL 795000 = true ∧
      TestNetConsensus.ForkInEffect .FORK_LIFESTEAL 795000 = true :=
  ⟨by decide, C10_main_implies_test .FORK_LIFESTEAL 795000 (by decide)⟩
